import Mathlib

/-!
Verification of the FileInput widget and the form validation schema.

The embedding below follows the two source units:
* the FileInput component (drag/drop handlers, simulated upload timer,
  displayed file size), modelled as pure transition functions on an
  explicit widget state, and
* formSchemas.ts (`initialValues` and the Yup `validationSchema`),
  modelled as per-field validators returning `none` on success and
  `some errorMessage` on failure, following Yup's runtime semantics:
  `required` on a string rejects the empty string (and an absent value),
  `required` on `mixed`/`boolean` rejects an absent or null value even
  when `nullable()` is chained after it, and `oneOf` checks membership
  in the listed labels.

A browser file handle is reduced to the two attributes the code reads:
`name` and `size` (bytes). JavaScript `null`/`undefined` file values are
both embedded as `Option.none`; a `FileList` becomes `List File`, with
`files[0]` embedded as `List.head?` (an empty list yields `none`, as
indexing an empty FileList yields undefined).
-/

namespace NextForm

/-- A browser file handle, reduced to the attributes the component reads. -/
structure File where
  name : String
  size : Nat
deriving DecidableEq, Repr

/-- The `fileInfo` local state: `{ name: file.name, size: file.size }`. -/
structure FileInfo where
  name : String
  size : Nat
deriving DecidableEq, Repr

/-- The state the FileInput component owns or writes: the `dragging`,
`fileInfo` and `uploadProgress` hooks, plus the Formik form-state entry
for `props.name` (written through `setFieldValue`). -/
structure WidgetState where
  dragging : Bool
  fileInfo : Option FileInfo
  uploadProgress : Nat
  fieldValue : Option File
deriving DecidableEq, Repr

/-- Embeds `handleChange`: `files` is `event.target.files`
(`FileList | null`). The code computes `file = files ? files[0] : null`,
calls `setFieldValue(props.name, file)` unconditionally, and only when
`file` is truthy records `fileInfo`, resets `uploadProgress` to 0 and
starts the simulated upload. -/
def handleChange (files : Option (List File)) (s : WidgetState) : WidgetState :=
  let file : Option File :=
    match files with
    | some fs => fs.head?
    | none => none
  let s1 : WidgetState := { s with fieldValue := file }
  match file with
  | some f => { s1 with fileInfo := some { name := f.name, size := f.size }, uploadProgress := 0 }
  | none => s1

/-- Embeds `handleDrop`: clears the dragging flag, and when the payload
`event.dataTransfer.files` is non-empty takes `files[0]`, records
`fileInfo`, writes the file into form state, resets `uploadProgress` to 0
and starts the simulated upload. An empty payload only clears the
dragging flag. -/
def handleDrop (files : List File) (s : WidgetState) : WidgetState :=
  let s1 : WidgetState := { s with dragging := false }
  if 0 < files.length then
    let s2 : WidgetState :=
      match files.head? with
      | some f =>
          { s1 with fileInfo := some { name := f.name, size := f.size }, fieldValue := some f }
      | none => s1
    { s2 with uploadProgress := 0 }
  else s1

/-- Embeds `handleDragOver`: sets the dragging flag when it is not
already set (`if (!dragging) setDragging(true)`). -/
def handleDragOver (s : WidgetState) : WidgetState :=
  if !s.dragging then { s with dragging := true } else s

/-- Embeds `handleDragLeave`: unconditionally clears the dragging flag. -/
def handleDragLeave (s : WidgetState) : WidgetState :=
  { s with dragging := false }

/-- The state of the `simulateUpload` interval: the `progress` local
variable and whether the interval is still scheduled (not yet cleared by
`clearInterval`). -/
structure TimerState where
  progress : Nat
  running : Bool
deriving DecidableEq, Repr

/-- One firing of the `setInterval` callback: when the interval is still
scheduled, `progress += 10` is published via `setUploadProgress`, and the
interval clears itself when `progress >= 100`. A cleared interval fires
no more, so the state is unchanged. -/
def timerTick (t : TimerState) : TimerState :=
  if t.running then
    let p := t.progress + 10
    if 100 ≤ p then { progress := p, running := false }
    else { progress := p, running := true }
  else t

/-- The timer state after `n` ticks of a `simulateUpload` run: `progress`
starts at 0 with the interval scheduled. -/
def timerAfter : Nat → TimerState
  | 0 => { progress := 0, running := true }
  | n + 1 => timerTick (timerAfter n)

/-- JavaScript `Math.round` on the (non-negative, finite) values the
component feeds it: round half up, i.e. the floor of `q + 1/2`. -/
def mathRound (q : ℚ) : ℤ := ⌊q + 1 / 2⌋

/-- The size shown in the file-info block:
`Math.round(fileInfo.size / 1024)` kilobytes. -/
def displayedSizeKB (size : Nat) : ℤ := mathRound ((size : ℚ) / 1024)

/-- Embeds the `importName` rule:
`Yup.string().required("Import name is required").oneOf(["Import ABC",
"Import DEF", "Import GHI"], "Invalid Import Name")`. Yup's `required`
on a string rejects the empty string; `oneOf` then checks membership. -/
def validateImportName (value : String) : Option String :=
  if value = "" then some "Import name is required"
  else if value ∈ ["Import ABC", "Import DEF", "Import GHI"] then none
  else some "Invalid Import Name"

/-- Embeds the `manifestFile` rule:
`Yup.mixed().required("A file is required").nullable()`. Yup's `required`
test checks `value != null`, rejecting both null and undefined even with
`nullable()` chained after it; `mixed` accepts any non-null value. -/
def validateManifestFile (value : Option File) : Option String :=
  if value = none then some "A file is required" else none

/-- Embeds the `splitSchedule` rule: `Yup.string().required("This field
is required").oneOf(["Yes", "No"], "Invalid Option")`. -/
def validateSplitSchedule (value : String) : Option String :=
  if value = "" then some "This field is required"
  else if value ∈ ["Yes", "No"] then none
  else some "Invalid Option"

/-- Embeds the `client` rule: `Yup.string().required("Client selection is
required").oneOf(["Single", "Multiple"], "Invalid Client Type")`. -/
def validateClient (value : String) : Option String :=
  if value = "" then some "Client selection is required"
  else if value ∈ ["Single", "Multiple"] then none
  else some "Invalid Client Type"

/-- Embeds the `toleranceWindow` rule: `Yup.boolean().required("Tolerance
window selection is required")`. A present boolean always passes; an
absent value fails `required`. -/
def validateToleranceWindow (value : Option Bool) : Option String :=
  match value with
  | none => some "Tolerance window selection is required"
  | some _ => none

/-- The fields declared in `initialValues` of formSchemas.ts. -/
inductive FieldName where
  | importName
  | manifestFile
  | splitSchedule
  | client
  | testingCenter1
  | testingCenter2
  | testingCenter3
  | testingCenter4
  | toleranceWindow
deriving DecidableEq, Repr

/-- A runtime form value: a string, a nullable file reference, a boolean,
or an entirely absent (undefined) value. -/
inductive Value where
  | str : String → Value
  | file : Option File → Value
  | bool : Bool → Value
  | undef : Value
deriving DecidableEq, Repr

/-- Embeds `initialValues` of formSchemas.ts. -/
def initialValues : FieldName → Value
  | .importName => .str ""
  | .manifestFile => .file none
  | .splitSchedule => .str ""
  | .client => .str ""
  | .testingCenter1 => .str ""
  | .testingCenter2 => .str ""
  | .testingCenter3 => .str ""
  | .testingCenter4 => .str ""
  | .toleranceWindow => .bool false

/-- The `importName` rule on runtime values: an absent value fails
`required`; a value of another runtime type cannot arise for this field
(its form value is a string) and would fail Yup's type check. -/
def importNameRule : Value → Option String
  | .str s => validateImportName s
  | .undef => some "Import name is required"
  | _ => some "Invalid type"

/-- The `manifestFile` rule on runtime values. -/
def manifestFileRule : Value → Option String
  | .file f => validateManifestFile f
  | .undef => some "A file is required"
  | _ => some "Invalid type"

/-- The `splitSchedule` rule on runtime values. -/
def splitScheduleRule : Value → Option String
  | .str s => validateSplitSchedule s
  | .undef => some "This field is required"
  | _ => some "Invalid type"

/-- The `client` rule on runtime values. -/
def clientRule : Value → Option String
  | .str s => validateClient s
  | .undef => some "Client selection is required"
  | _ => some "Invalid type"

/-- The `toleranceWindow` rule on runtime values. -/
def toleranceWindowRule : Value → Option String
  | .bool b => validateToleranceWindow (some b)
  | .undef => validateToleranceWindow none
  | _ => some "Invalid type"

/-- Embeds `validationSchema` of formSchemas.ts as a partial map from
field to rule: the five fields with rules map to their validators; the
four testing-center fields appear in no rule of the schema. -/
def schemaRule : FieldName → Option (Value → Option String)
  | .importName => some importNameRule
  | .manifestFile => some manifestFileRule
  | .splitSchedule => some splitScheduleRule
  | .client => some clientRule
  | .toleranceWindow => some toleranceWindowRule
  | _ => none

/-- Per-field validation as Yup's object schema performs it: a field
without a rule is not validated (Yup neither strips nor rejects unknown
or unconstrained keys by default), so it always passes. -/
def validateField (f : FieldName) (v : Value) : Option String :=
  match schemaRule f with
  | some rule => rule v
  | none => none

/-- A concrete file handle used in concrete counterexamples. -/
def sampleFile : File := { name := "manifest.csv", size := 2048 }

/-- A concrete widget state holding a previously selected file. -/
def sampleState : WidgetState :=
  { dragging := false
    fileInfo := some { name := "manifest.csv", size := 2048 }
    uploadProgress := 100
    fieldValue := some sampleFile }

/-- Closed form of the simulated-upload timer: after `n` ticks the
published progress is `min (10 * n) 100`, and the interval is still
scheduled exactly while fewer than 10 ticks have fired. -/
theorem timerAfter_closed (n : Nat) :
    timerAfter n = { progress := min (10 * n) 100, running := decide (n < 10) } := by
  induction n with
  | zero => rfl
  | succ n ih =>
    rw [timerAfter, ih]
    simp only [timerTick]
    by_cases h : n < 10
    · rw [decide_eq_true h, if_pos rfl]
      by_cases h2 : 100 ≤ min (10 * n) 100 + 10
      · rw [if_pos h2]
        have h9 : n = 9 := by omega
        subst h9
        decide
      · rw [if_neg h2]
        have e1 : min (10 * n) 100 + 10 = min (10 * (n + 1)) 100 := by omega
        have e2 : decide (n + 1 < 10) = true := decide_eq_true (by omega)
        rw [e1, e2]
    · rw [decide_eq_false h, if_neg Bool.false_ne_true]
      have e1 : min (10 * n) 100 = min (10 * (n + 1)) 100 := by omega
      have e2 : decide (n + 1 < 10) = false := decide_eq_false (by omega)
      rw [e1, e2]

/-- C1: the claim that an empty selection is a complete no-op fails:
`handleChange` with a null file list writes null into the form-state
entry, clearing a previously selected file. -/
theorem c1_counterexample :
    (handleChange none sampleState).fieldValue ≠ sampleState.fieldValue := by
  decide

/-- C1 (amended): a drop with an empty payload leaves `fileInfo`,
`uploadProgress` and the form-state entry unchanged; `handleChange` with
an empty or null file list leaves `fileInfo` and `uploadProgress`
unchanged but writes null into the form-state entry, so it is a no-op on
that entry only when the entry was already null. -/
theorem c1_empty_selection (s : WidgetState) (files : Option (List File)) :
    ((handleDrop [] s).fileInfo = s.fileInfo ∧
     (handleDrop [] s).uploadProgress = s.uploadProgress ∧
     (handleDrop [] s).fieldValue = s.fieldValue) ∧
    ((files = none ∨ files = some []) →
      (handleChange files s).fileInfo = s.fileInfo ∧
      (handleChange files s).uploadProgress = s.uploadProgress ∧
      (handleChange files s).fieldValue = none) := by
  constructor
  · simp [handleDrop]
  · rintro (rfl | rfl) <;> simp [handleChange]

/-- C2: after any selection (change or drop) the displayed progress is
reset to 0; each tick of the simulated upload increments progress by
exactly 10 while the interval lives, the published sequence is
non-decreasing, it reaches 100 after exactly 10 ticks and not before,
and the interval has cleared itself exactly when progress has reached
100. -/
theorem c2_progress (f : File) (fs : List File) (s : WidgetState) (n : Nat) :
    (handleChange (some (f :: fs)) s).uploadProgress = 0 ∧
    (handleDrop (f :: fs) s).uploadProgress = 0 ∧
    (timerAfter 0).progress = 0 ∧
    (n < 10 → (timerAfter (n + 1)).progress = (timerAfter n).progress + 10) ∧
    (timerAfter n).progress ≤ (timerAfter (n + 1)).progress ∧
    (timerAfter 10).progress = 100 ∧
    (n < 10 → (timerAfter n).progress < 100) ∧
    ((timerAfter n).running = false ↔ 100 ≤ (timerAfter n).progress) := by
  refine ⟨by simp [handleChange], by simp [handleDrop], rfl, ?_, ?_, ?_, ?_, ?_⟩
  · intro h
    rw [timerAfter_closed, timerAfter_closed]
    simp only
    omega
  · rw [timerAfter_closed, timerAfter_closed]
    simp only
    omega
  · rw [timerAfter_closed]
    simp only
    omega
  · intro h
    rw [timerAfter_closed]
    simp only
    omega
  · rw [timerAfter_closed]
    simp only [decide_eq_false_iff_not, Nat.not_lt]
    omega

/-- C3: for a drop payload with at least one file, `handleDrop` leaves
the widget in the same `fileInfo`, `uploadProgress` and form-state entry
as `handleChange` applied to a file list whose first file is the same. -/
theorem c3_drop_matches_change (f : File) (fs : List File) (s : WidgetState) :
    (handleDrop (f :: fs) s).fileInfo = (handleChange (some (f :: fs)) s).fileInfo ∧
    (handleDrop (f :: fs) s).uploadProgress = (handleChange (some (f :: fs)) s).uploadProgress ∧
    (handleDrop (f :: fs) s).fieldValue = (handleChange (some (f :: fs)) s).fieldValue := by
  simp [handleDrop, handleChange]

/-- C4: for every byte size `s`, the displayed kilobyte figure
`Math.round(s / 1024)` equals the mathematical rounding of `s / 1024`,
and equals the natural-number formula `(s + 512) / 1024`. -/
theorem c4_displayed_size (s : Nat) :
    displayedSizeKB s = round ((s : ℚ) / 1024) ∧
    displayedSizeKB s = ((s + 512) / 1024 : Nat) := by
  constructor
  · rw [displayedSizeKB, mathRound, round_eq]
  · rw [displayedSizeKB, mathRound]
    have h : (s : ℚ) / 1024 + 1 / 2 = ((s + 512 : Nat) : ℚ) / ((1024 : Nat) : ℚ) := by
      push_cast
      ring
    rw [h, ← Int.natCast_floor_eq_floor (by positivity), Nat.floor_div_eq_div]

/-- C5: under the `importName` rule, the label Import ABC passes, the
label Import XYZ fails with the invalid-option error, and the empty
string fails with the required error. -/
theorem c5_import_name_validation :
    validateImportName "Import ABC" = none ∧
    validateImportName "Import XYZ" = some "Invalid Import Name" ∧
    validateImportName "" = some "Import name is required" := by
  refine ⟨?_, ?_, ?_⟩ <;> decide

/-- C6: under the `manifestFile` rule, a null value fails the required
check and any non-null file object passes. -/
theorem c6_manifest_file_validation :
    validateManifestFile none = some "A file is required" ∧
    ∀ f : File, validateManifestFile (some f) = none := by
  exact ⟨rfl, fun f => rfl⟩

/-- C7: under the `toleranceWindow` rule, both true and false pass, and
the rule fails exactly when the value is entirely unset. -/
theorem c7_tolerance_window_validation :
    validateToleranceWindow (some true) = none ∧
    validateToleranceWindow (some false) = none ∧
    ∀ v : Option Bool, (validateToleranceWindow v ≠ none ↔ v = none) := by
  refine ⟨rfl, rfl, fun v => ?_⟩
  cases v <;> simp [validateToleranceWindow]

/-- C8: the four testing-center fields are declared in the initial
values, have no rule in the validation schema, and every value assigned
to any of them passes validation. -/
theorem c8_testing_centers_unvalidated :
    (initialValues .testingCenter1 = .str "" ∧ initialValues .testingCenter2 = .str "" ∧
     initialValues .testingCenter3 = .str "" ∧ initialValues .testingCenter4 = .str "") ∧
    (schemaRule .testingCenter1 = none ∧ schemaRule .testingCenter2 = none ∧
     schemaRule .testingCenter3 = none ∧ schemaRule .testingCenter4 = none) ∧
    ∀ v : Value,
      validateField .testingCenter1 v = none ∧ validateField .testingCenter2 v = none ∧
      validateField .testingCenter3 v = none ∧ validateField .testingCenter4 v = none := by
  exact ⟨⟨rfl, rfl, rfl, rfl⟩, ⟨rfl, rfl, rfl, rfl⟩, fun v => ⟨rfl, rfl, rfl, rfl⟩⟩

/-- C9: `handleDragOver` always leaves the dragging flag set, is a no-op
when the flag is already set, and is idempotent; `handleDragLeave`
clears the flag from every prior state. -/
theorem c9_drag_flags (s : WidgetState) :
    (handleDragOver s).dragging = true ∧
    (s.dragging = true → handleDragOver s = s) ∧
    handleDragOver (handleDragOver s) = handleDragOver s ∧
    (handleDragLeave s).dragging = false := by
  obtain ⟨d, fi, up, fv⟩ := s
  cases d <;> simp [handleDragOver, handleDragLeave]

/-- C10: after a selection that supplies at least one file, the stored
form-state entry holds the first file of the payload and the displayed
file descriptor carries exactly that file's name and size, for the
change handler and the drop handler alike. -/
theorem c10_fileinfo_consistent (f : File) (fs : List File) (s : WidgetState) :
    ((handleChange (some (f :: fs)) s).fieldValue = some f ∧
     (handleChange (some (f :: fs)) s).fileInfo = some { name := f.name, size := f.size }) ∧
    ((handleDrop (f :: fs) s).fieldValue = some f ∧
     (handleDrop (f :: fs) s).fileInfo = some { name := f.name, size := f.size }) := by
  simp [handleChange, handleDrop]

end NextForm
